import Mathlib

/-!
Verification of the `k3sup` install command core (`pkg/cmd/install.go`).

The file embeds, shallowly, the functions of that file that the checked
claims are about:

* the loopback rewrite performed on the retrieved kubeconfig document
  (`strings.NewReplacer("localhost", ip, "127.0.0.1", ip).Replace`),
* `writeConfig` (via `ioutil.WriteFile` with mode `0600`),
* `mergeConfigs` (temporary file, external `kubectl config view --merge
  --flatten` invocation, `os.Remove`),
* `sshAgent` and `loadPublickey` (the credential-resolution fallback chain),
* the orchestration in `MakeInstall`'s `RunE` closure.

Effectful library calls (file reads, key parsing, the agent socket, the
external merge tool, the passphrase read) are embedded as explicit
environment records of result-valued functions, and the orchestration's
observable I/O (agent dial, remote dial, remote command execution) is
recorded in an explicit event trace, so that claims about "no dial" or
"command never sent" become statements about the trace.
-/

/-- File contents / key material are byte strings; we model them as the
character lists underlying Go strings (Go converts freely between `[]byte`
and `string`, byte for byte). -/
abbrev Bytes := List Char

/- ### ConfigTransform: the loopback rewrite -/

/-- First pattern of the replacer built at `install.go:117`. -/
def localhostPat : List Char := ['l', 'o', 'c', 'a', 'l', 'h', 'o', 's', 't']

/-- Second pattern of the replacer built at `install.go:117`. -/
def loopbackPat : List Char := ['1', '2', '7', '.', '0', '.', '0', '.', '1']

/-- Semantics of Go's `strings.NewReplacer(p1, a, p2, a).Replace`: scan left
to right; at each position try the patterns in argument order; on a match
emit the replacement and continue after the matched text (no overlapping
matches, replaced text is not rescanned); otherwise copy the byte. -/
def goReplace (addr : List Char) (s : List Char) : List Char :=
  match s with
  | [] => []
  | c :: rest =>
    if localhostPat.isPrefixOf (c :: rest) then
      addr ++ goReplace addr ((c :: rest).drop localhostPat.length)
    else if loopbackPat.isPrefixOf (c :: rest) then
      addr ++ goReplace addr ((c :: rest).drop loopbackPat.length)
    else
      c :: goReplace addr rest
termination_by s.length
decreasing_by
  all_goals simp [List.length_drop, localhostPat, loopbackPat]
  all_goals omega

/-- The rewrite applied to the retrieved document at `install.go:117`:
`strings.NewReplacer("localhost", ip, "127.0.0.1", ip).Replace(doc)`. -/
def rewriteLoopback (doc : Bytes) (addr : List Char) : Bytes :=
  goReplace addr doc

/-- Number of substitutions `goReplace` performs on `s` (independent of the
replacement text, which is never rescanned). -/
def rewriteCount (s : List Char) : Nat :=
  match s with
  | [] => 0
  | c :: rest =>
    if localhostPat.isPrefixOf (c :: rest) then
      rewriteCount ((c :: rest).drop localhostPat.length) + 1
    else if loopbackPat.isPrefixOf (c :: rest) then
      rewriteCount ((c :: rest).drop loopbackPat.length) + 1
    else
      rewriteCount rest
termination_by s.length
decreasing_by
  all_goals simp [List.length_drop, localhostPat, loopbackPat]
  all_goals omega

/-- Specification-side characterisation of the rewrite, written from the
spec's words: the output is obtained from the input by replacing every
literal occurrence of `localhost` and every literal occurrence of
`127.0.0.1` with the address and copying every other byte unchanged — a
byte may be copied only where no occurrence of either pattern starts, so
no occurrence is skipped.  The index counts the substitutions made. -/
inductive ReplSpec (addr : List Char) : List Char → List Char → Nat → Prop where
  | nil : ReplSpec addr [] [] 0
  | copy (c : Char) (s t : List Char) (k : Nat)
      (h1 : ¬ localhostPat <+: (c :: s)) (h2 : ¬ loopbackPat <+: (c :: s))
      (h : ReplSpec addr s t k) : ReplSpec addr (c :: s) (c :: t) k
  | substLocalhost (s t : List Char) (k : Nat)
      (h : ReplSpec addr s t k) :
      ReplSpec addr (localhostPat ++ s) (addr ++ t) (k + 1)
  | substLoopback (s t : List Char) (k : Nat)
      (h : ReplSpec addr s t k) :
      ReplSpec addr (loopbackPat ++ s) (addr ++ t) (k + 1)

theorem goReplace_nil (addr : List Char) : goReplace addr [] = [] := by
  rw [goReplace.eq_def]

theorem rewriteCount_nil : rewriteCount [] = 0 := by
  rw [rewriteCount.eq_def]

theorem goReplace_spec_aux (n : Nat) :
    ∀ (s : List Char) (addr : List Char), s.length ≤ n →
      ReplSpec addr s (goReplace addr s) (rewriteCount s) ∧
      (goReplace addr s).length + 9 * rewriteCount s
        = s.length + addr.length * rewriteCount s := by
  induction n with
  | zero =>
    intro s addr hlen
    have hs : s = [] := List.length_eq_zero.mp (Nat.le_zero.mp hlen)
    subst hs
    refine ⟨?_, ?_⟩
    · rw [goReplace_nil, rewriteCount_nil]; exact ReplSpec.nil
    · rw [goReplace_nil, rewriteCount_nil]; simp
  | succ n ih =>
    intro s addr hlen
    match s with
    | [] =>
      refine ⟨?_, ?_⟩
      · rw [goReplace_nil, rewriteCount_nil]; exact ReplSpec.nil
      · rw [goReplace_nil, rewriteCount_nil]; simp
    | c :: rest =>
      by_cases h1 : localhostPat.isPrefixOf (c :: rest)
      · have hpre : localhostPat <+: (c :: rest) :=
          List.isPrefixOf_iff_prefix.mp h1
        obtain ⟨t, ht⟩ := hpre
        have hdrop : (c :: rest).drop localhostPat.length = t := by
          rw [← ht]; exact List.drop_left localhostPat t
        have hlen2 : rest.length + 1 = 9 + t.length := by
          have h := congrArg List.length ht
          simp [localhostPat] at h
          omega
        have htlen : t.length ≤ n := by
          simp at hlen
          omega
        obtain ⟨ihspec, ihlen⟩ := ih t addr htlen
        have hgo : goReplace addr (c :: rest) = addr ++ goReplace addr t := by
          rw [goReplace.eq_def]
          simp [h1, hdrop]
        have hcount : rewriteCount (c :: rest) = rewriteCount t + 1 := by
          rw [rewriteCount.eq_def]
          simp [h1, hdrop]
        refine ⟨?_, ?_⟩
        · rw [hgo, hcount, ← ht]
          exact ReplSpec.substLocalhost t (goReplace addr t) (rewriteCount t) ihspec
        · rw [hgo, hcount]
          simp only [List.length_append, List.length_cons]
          have h9 : (9 : Nat) * (rewriteCount t + 1) = 9 * rewriteCount t + 9 := by
            ring
          have ha : addr.length * (rewriteCount t + 1)
              = addr.length * rewriteCount t + addr.length := by
            ring
          rw [h9, ha]
          linarith [ihlen, hlen2]
      · by_cases h2 : loopbackPat.isPrefixOf (c :: rest)
        · have hpre : loopbackPat <+: (c :: rest) :=
            List.isPrefixOf_iff_prefix.mp h2
          obtain ⟨t, ht⟩ := hpre
          have hdrop : (c :: rest).drop loopbackPat.length = t := by
            rw [← ht]; exact List.drop_left loopbackPat t
          have hlen2 : rest.length + 1 = 9 + t.length := by
            have h := congrArg List.length ht
            simp [loopbackPat] at h
            omega
          have htlen : t.length ≤ n := by
            simp at hlen
            omega
          obtain ⟨ihspec, ihlen⟩ := ih t addr htlen
          have hgo : goReplace addr (c :: rest) = addr ++ goReplace addr t := by
            rw [goReplace.eq_def]
            simp [h1, h2, hdrop]
          have hcount : rewriteCount (c :: rest) = rewriteCount t + 1 := by
            rw [rewriteCount.eq_def]
            simp [h1, h2, hdrop]
          refine ⟨?_, ?_⟩
          · rw [hgo, hcount, ← ht]
            exact ReplSpec.substLoopback t (goReplace addr t) (rewriteCount t) ihspec
          · rw [hgo, hcount]
            simp only [List.length_append, List.length_cons]
            have h9 : (9 : Nat) * (rewriteCount t + 1) = 9 * rewriteCount t + 9 := by
              ring
            have ha : addr.length * (rewriteCount t + 1)
                = addr.length * rewriteCount t + addr.length := by
              ring
            rw [h9, ha]
            linarith [ihlen, hlen2]
        · have hrest : rest.length ≤ n := by simp at hlen; omega
          obtain ⟨ihspec, ihlen⟩ := ih rest addr hrest
          have hgo : goReplace addr (c :: rest) = c :: goReplace addr rest := by
            rw [goReplace.eq_def]
            simp [h1, h2]
          have hcount : rewriteCount (c :: rest) = rewriteCount rest := by
            rw [rewriteCount.eq_def]
            simp [h1, h2]
          refine ⟨?_, ?_⟩
          · rw [hgo, hcount]
            exact ReplSpec.copy c rest (goReplace addr rest) (rewriteCount rest)
              (fun hp => h1 (List.isPrefixOf_iff_prefix.mpr hp))
              (fun hp => h2 (List.isPrefixOf_iff_prefix.mpr hp)) ihspec
          · rw [hgo, hcount]
            simp only [List.length_cons]
            linarith [ihlen]

/- ### Local filesystem model -/

/-- A file on the local filesystem: its permission bits and contents.
`0600` is the decimal 384 used throughout. -/
structure FileData where
  perm : Nat
  content : Bytes
deriving DecidableEq

/-- The local filesystem as an association list from paths to files. -/
abbrev FS := List (String × FileData)

def fsLookup : FS → String → Option FileData
  | [], _ => none
  | (q, fd) :: rest, p => if q = p then some fd else fsLookup rest p

/-- Semantics of `ioutil.WriteFile(path, data, perm)` (documented contract
of `os.WriteFile`): if the file does not exist it is created with
permission `perm`; otherwise it is truncated and rewritten *without
changing its permissions*. -/
def fsWrite : FS → String → Bytes → Nat → FS
  | [], p, data, perm => [(p, ⟨perm, data⟩)]
  | (q, fd) :: rest, p, data, perm =>
    if q = p then (q, ⟨fd.perm, data⟩) :: rest
    else (q, fd) :: fsWrite rest p data perm

/-- Effect of a successful `os.Remove(path)`. -/
def fsRemove : FS → String → FS
  | [], _ => []
  | (q, fd) :: rest, p =>
    if q = p then fsRemove rest p else (q, fd) :: fsRemove rest p

theorem fsLookup_fsWrite_none {fs : FS} {p : String} (d : Bytes) (m : Nat)
    (h : fsLookup fs p = none) : fsLookup (fsWrite fs p d m) p = some ⟨m, d⟩ := by
  induction fs with
  | nil => simp [fsWrite, fsLookup]
  | cons e rest ih =>
    obtain ⟨q, fd⟩ := e
    by_cases hq : q = p
    · simp [fsLookup, hq] at h
    · simp [fsLookup, fsWrite, hq] at h ⊢
      exact ih h

theorem fsLookup_fsWrite_some {fs : FS} {p : String} {fd0 : FileData}
    (d : Bytes) (m : Nat) (h : fsLookup fs p = some fd0) :
    fsLookup (fsWrite fs p d m) p = some ⟨fd0.perm, d⟩ := by
  induction fs with
  | nil => simp [fsLookup] at h
  | cons e rest ih =>
    obtain ⟨q, fd⟩ := e
    by_cases hq : q = p
    · simp [fsLookup, hq] at h
      subst h
      simp [fsWrite, fsLookup, hq]
    · simp [fsLookup, hq] at h
      simp [fsWrite, fsLookup, hq]
      exact ih h

theorem fsLookup_fsWrite_ne {fs : FS} {p q : String} (d : Bytes) (m : Nat)
    (h : q ≠ p) : fsLookup (fsWrite fs p d m) q = fsLookup fs q := by
  induction fs with
  | nil => simp [fsWrite, fsLookup, Ne.symm h]
  | cons e rest ih =>
    obtain ⟨r, fd⟩ := e
    by_cases hr : r = p
    · subst hr
      simp [fsWrite, fsLookup, Ne.symm h]
    · by_cases hrq : r = q
      · simp [fsWrite, fsLookup, hr, hrq, h]
      · simp [fsWrite, fsLookup, hr, hrq, ih]

theorem fsLookup_fsRemove_self {fs : FS} {p : String} :
    fsLookup (fsRemove fs p) p = none := by
  induction fs with
  | nil => simp [fsRemove, fsLookup]
  | cons e rest ih =>
    obtain ⟨q, fd⟩ := e
    by_cases hq : q = p
    · simp [fsRemove, hq, ih]
    · simp [fsRemove, hq, fsLookup, ih]

theorem fsLookup_fsRemove_ne {fs : FS} {p q : String} (h : q ≠ p) :
    fsLookup (fsRemove fs p) q = fsLookup fs q := by
  induction fs with
  | nil => simp [fsRemove]
  | cons e rest ih =>
    obtain ⟨r, fd⟩ := e
    by_cases hr : r = p
    · subst hr
      simp [fsRemove, fsLookup, Ne.symm h, ih]
    · by_cases hrq : r = q
      · simp [fsRemove, fsLookup, hr, hrq, h, ih]
      · simp [fsRemove, fsLookup, hr, hrq, ih]

/- ### writeConfig and mergeConfigs -/

/-- Environment for `mergeConfigs` and `writeConfig`: the outcomes of the
library and subprocess calls they make.  `none` in `writeResult` /
`removeResult` means the call succeeds; `some e` is the error it returns.
`mergeTool` is the external `kubectl config view --merge --flatten`
collaborator run with `KUBECONFIG=localPath:tempName`; it is a function of
the contents of those two files (in that order) and `Except.error e` is a
non-zero exit with error `e`. -/
structure MergeEnv where
  tempName : Except String String
  writeResult : String → Option String
  mergeTool : Option Bytes → Option Bytes → Except String Bytes
  removeResult : String → Option String

/-- Model of `writeConfig` (`install.go:151`): one `ioutil.WriteFile` with
mode `0600` (= 384).  `filepath.Abs` is the identity here (paths in the
model are already absolute) and `suppressMessage` only controls a printed
message, which has no observable effect in the model. -/
def writeConfig (env : MergeEnv) (fs : FS) (path : String) (data : Bytes)
    (suppressMessage : Bool) : Except String FS :=
  match env.writeResult path with
  | some e => .error e
  | none => .ok (fsWrite fs path data 384)

/-- Model of `mergeConfigs` (`install.go:163`).  `ioutil.TempFile` creates
the (empty) temporary file with mode `0600`; the deferred `file.Close()`
only releases the handle, which the model does not track.  Note the order
of operations, faithful to the source: the error check for the external
tool (line 184) precedes `os.Remove` (line 189), and a failing `os.Remove`
is an error return (line 191). -/
def mergeConfigs (env : MergeEnv) (fs : FS) (localKubeconfigPath : String)
    (k3sconfig : Bytes) : Except String Bytes × FS :=
  match env.tempName with
  | .error e =>
    (.error ("Could not generate a temporary file to store the kuebeconfig: " ++ e), fs)
  | .ok name =>
    let fs1 := fsWrite fs name [] 384
    match writeConfig env fs1 name k3sconfig true with
    | .error e => (.error e, fs1)
    | .ok fs2 =>
      match env.mergeTool ((fsLookup fs2 localKubeconfigPath).map FileData.content)
          ((fsLookup fs2 name).map FileData.content) with
      | .error e => (.error ("Could not merge kubeconfigs: " ++ e), fs2)
      | .ok data =>
        match env.removeResult name with
        | some e =>
          (.error ("Could not remove temporary kubeconfig file: " ++ name ++ ": " ++ e), fs2)
        | none => (.ok data, fsRemove fs2 name)

/- ### CredentialResolver: sshAgent and loadPublickey -/

/-- The resolved authentication method: `ssh.PublicKeys(signer)` for a
locally parsed key, or `ssh.PublicKeysCallback(agent.Signers)` — a callback
offering the signers of every key the agent holds.  Signers are opaque
tokens. -/
inductive AuthMethod where
  | publicKeys (signer : Nat)
  | publicKeysCallback (signers : List Nat)
deriving DecidableEq

/-- One key held by the agent: its marshaled public-key blob (`key.Blob`)
and the signer the agent offers for it. -/
structure AgentKey where
  blob : Bytes
  signer : Nat
deriving DecidableEq

/-- Environment of `loadPublickey` / `sshAgent`: outcomes of the library
calls they make.  `readFile` is `ioutil.ReadFile`; the two parse functions
are `ssh.ParsePrivateKey` and `ssh.ParsePrivateKeyWithPassphrase` (errors
carry the Go error string); `readPassword` is `terminal.ReadPassword`,
returning the bytes read together with an optional error; `agentDialOk`
is whether `net.Dial("unix", os.Getenv("SSH_AUTH_SOCK"))` succeeds;
`agentKeys` is the agent's key list (its error is discarded by the source);
`parseAuthorizedKey` maps a public-key file to the marshaled blob
`authkey.Marshal()` of the parsed key. -/
structure SSHEnv where
  readFile : String → Except String Bytes
  parsePrivateKey : Bytes → Except String Nat
  parsePrivateKeyWithPassphrase : Bytes → Bytes → Except String Nat
  readPassword : Bytes × Option String
  agentDialOk : Bool
  agentKeys : List AgentKey
  parseAuthorizedKey : Bytes → Except String Bytes

/-- Error string `ssh.ParsePrivateKey` produces for an encrypted key,
compared against at `install.go:241`. -/
def encryptedKeyMsg : String := "ssh: cannot decode encrypted private keys"

/-- Result of `sshAgent`: the method (or `nil`) and whether the returned
close function is `sshAgentConn.Close` (`true`) or the no-op fallthrough
(`false`). -/
structure AgentResult where
  auth : Option AuthMethod
  closeIsConn : Bool
deriving DecidableEq

/-- Model of `sshAgent` (`install.go:202`).  When the dial succeeds and a
key whose blob equals the parsed local public key is found, the returned
method is `ssh.PublicKeysCallback(sshAgent.Signers)`: the signers of all
the agent's keys. -/
def sshAgent (env : SSHEnv) (publicKeyPath : String) : AgentResult :=
  if env.agentDialOk then
    if env.agentKeys.length = 0 then ⟨none, true⟩
    else
      match env.readFile publicKeyPath with
      | .error _ => ⟨none, true⟩
      | .ok pubkey =>
        match env.parseAuthorizedKey pubkey with
        | .error _ => ⟨none, true⟩
        | .ok parsedkey =>
          if env.agentKeys.any (fun k => k.blob == parsedkey) then
            ⟨some (.publicKeysCallback (env.agentKeys.map AgentKey.signer)), true⟩
          else ⟨none, false⟩
  else ⟨none, false⟩

/-- Observable outcome of `loadPublickey`: the returned method and error,
whether agent resolution was reached (which always attempts the agent
socket dial), and whether the interactive passphrase prompt was written. -/
structure LoadResult where
  auth : Option AuthMethod
  err : Option String
  agentDialed : Bool
  prompted : Bool
deriving DecidableEq

/-- Model of `loadPublickey` (`install.go:231`).  Faithful to the source:
a read failure or a non-encryption parse failure returns at once; only the
exact `encryptedKeyMsg` parse error falls through to `sshAgent`; when the
agent yields nothing the passphrase is prompted, and the error of
`terminal.ReadPassword` is discarded (`install.go:253` assigns it but the
next check only inspects the error of the passphrase parse). -/
def loadPublickey (env : SSHEnv) (path : String) : LoadResult :=
  match env.readFile path with
  | .error e => ⟨none, some e, false, false⟩
  | .ok key =>
    match env.parsePrivateKey key with
    | .ok signer => ⟨some (.publicKeys signer), none, false, false⟩
    | .error e =>
      if e ≠ encryptedKeyMsg then ⟨none, some e, false, false⟩
      else
        match (sshAgent env (path ++ ".pub")).auth with
        | some am => ⟨some am, none, true, false⟩
        | none =>
          let bytePassword := env.readPassword.1
          match env.parsePrivateKeyWithPassphrase key bytePassword with
          | .ok signer => ⟨some (.publicKeys signer), none, true, true⟩
          | .error e2 => ⟨none, some e2, true, true⟩

/- ### Orchestrator: MakeInstall's RunE -/

/-- Flag values as seen by the `RunE` closure.  `localPath` is the result
of `filepath.Abs(localKubeconfig)` (paths in the model are already
absolute). -/
structure Flags where
  localPath : String
  skipInstall : Bool
  merge : Bool
  ip : String
  port : Nat
  sshKeyPath : String
  k3sExtraArgs : String
  k3sVersion : String

/-- Result of one remote command: captured standard output and error. -/
structure CmdRes where
  stdout : Bytes
  stderr : Bytes
deriving DecidableEq

/-- Observable network and subprocess events of one orchestration run. -/
inductive Event where
  | agentDial
  | sshDial (address : String)
  | remoteExec (cmd : String)
deriving DecidableEq

/-- Environment of the `RunE` closure beyond `loadPublickey`'s: whether
`kssh.NewSSHOperator` succeeds, the behaviour of `operator.Execute`, and
the environment of `mergeConfigs` / `writeConfig`. -/
structure InstallEnv where
  ssh : SSHEnv
  connect : Except String Unit
  execute : String → Except String CmdRes
  mergeEnv : MergeEnv

/-- Outcome of a run: the returned error (if any), the final local
filesystem, and the event trace. -/
structure RunOut where
  result : Except String Unit
  fs : FS
  events : List Event

/-- The quoting `%q` applies to the key path in the wrap at
`install.go:69` (escaping inside the path is not modelled). -/
def goQuote (s : String) : String := "\"" ++ s ++ "\""

/-- The installer command built at `install.go:92` (`strings.TrimSpace`
modelled by `String.trim`). -/
def installK3sCommand (ip extraArgs ver : String) : String :=
  "curl -sLS https://get.k3s.io | INSTALL_K3S_EXEC='server --tls-san " ++ ip
    ++ " " ++ extraArgs.trim ++ "' INSTALL_K3S_VERSION='" ++ ver ++ "' sh -\n"

/-- The retrieval command built at `install.go:104`. -/
def getConfigCommand : String := "sudo cat /etc/rancher/k3s/k3s.yaml\n"

/-- Tail of the orchestration after the optional install step
(`install.go:104-132`): retrieve the remote kubeconfig, rewrite loopback
addresses to the node address, optionally merge with the existing local
file, and persist with `writeConfig`. -/
def runFetchAndPersist (env : InstallEnv) (fs : FS) (fl : Flags)
    (ev : List Event) : RunOut :=
  let ev2 := ev ++ [Event.remoteExec getConfigCommand]
  match env.execute getConfigCommand with
  | .error e => ⟨.error ("Error received processing command: " ++ e), fs, ev2⟩
  | .ok res =>
    let kubeconfig := rewriteLoopback res.stdout fl.ip.data
    if fl.merge then
      match mergeConfigs env.mergeEnv fs fl.localPath kubeconfig with
      | (.error e, fs2) => ⟨.error e, fs2, ev2⟩
      | (.ok merged, fs2) =>
        match writeConfig env.mergeEnv fs2 fl.localPath merged false with
        | .error e => ⟨.error e, fs2, ev2⟩
        | .ok fs3 => ⟨.ok (), fs3, ev2⟩
    else
      match writeConfig env.mergeEnv fs fl.localPath kubeconfig false with
      | .error e => ⟨.error e, fs, ev2⟩
      | .ok fs3 => ⟨.ok (), fs3, ev2⟩

/-- Model of the `RunE` closure of `MakeInstall` (`install.go:46-133`):
resolve credentials, dial `ip:port`, run the installer unless
`skip-install`, then fetch, transform, optionally merge, and persist. -/
def runInstall (env : InstallEnv) (fs : FS) (fl : Flags) : RunOut :=
  let lr := loadPublickey env.ssh fl.sshKeyPath
  let ev0 : List Event := if lr.agentDialed then [Event.agentDial] else []
  match lr.err with
  | some e =>
    ⟨.error ("unable to load the ssh key with path " ++ goQuote fl.sshKeyPath
        ++ ": " ++ e), fs, ev0⟩
  | none =>
    let address := fl.ip ++ ":" ++ toString fl.port
    let ev1 := ev0 ++ [Event.sshDial address]
    match env.connect with
    | .error e =>
      ⟨.error ("unable to connect to " ++ address ++ " over ssh: " ++ e), fs, ev1⟩
    | .ok _ =>
      if fl.skipInstall then runFetchAndPersist env fs fl ev1
      else
        let cmd := installK3sCommand fl.ip fl.k3sExtraArgs fl.k3sVersion
        let ev2 := ev1 ++ [Event.remoteExec cmd]
        match env.execute cmd with
        | .error e =>
          ⟨.error ("Error received processing command: " ++ e), fs, ev2⟩
        | .ok _ => runFetchAndPersist env fs fl ev2

/- ### Helper lemmas about loadPublickey and mergeConfigs -/

theorem loadPublickey_read_error {env : SSHEnv} {path : String} {e : String}
    (hread : env.readFile path = .error e) :
    loadPublickey env path = ⟨none, some e, false, false⟩ := by
  unfold loadPublickey
  rw [hread]

theorem loadPublickey_parse_error_other {env : SSHEnv} {path : String}
    {key : Bytes} {e : String}
    (hread : env.readFile path = .ok key)
    (hparse : env.parsePrivateKey key = .error e)
    (hne : e ≠ encryptedKeyMsg) :
    loadPublickey env path = ⟨none, some e, false, false⟩ := by
  simp only [loadPublickey, hread, hparse]
  simp [hne]

theorem loadPublickey_agent_some {env : SSHEnv} {path : String}
    {key : Bytes} {am : AuthMethod}
    (hread : env.readFile path = .ok key)
    (hparse : env.parsePrivateKey key = .error encryptedKeyMsg)
    (hagent : (sshAgent env (path ++ ".pub")).auth = some am) :
    loadPublickey env path = ⟨some am, none, true, false⟩ := by
  simp only [loadPublickey, hread, hparse]
  simp [hagent]

theorem loadPublickey_pw_path {env : SSHEnv} {path : String} {key pw : Bytes}
    (hread : env.readFile path = .ok key)
    (hparse : env.parsePrivateKey key = .error encryptedKeyMsg)
    (hagent : (sshAgent env (path ++ ".pub")).auth = none)
    (hpw1 : env.readPassword.1 = pw) :
    loadPublickey env path =
      match env.parsePrivateKeyWithPassphrase key pw with
      | .ok s => ⟨some (.publicKeys s), none, true, true⟩
      | .error e2 => ⟨none, some e2, true, true⟩ := by
  simp only [loadPublickey, hread, hparse]
  simp [hagent, hpw1]

/- ### Claim C1 -/

/-- C1: when the key file's bytes fail to parse as an unencrypted private
key, `loadPublickey` falls through to agent resolution (which dials the
agent socket) exactly when the parse error is the "key is encrypted"
condition; any other parse error is returned immediately, with no agent
dial and no passphrase prompt. -/
theorem claim_C1_parse_error_gate (env : SSHEnv) (path : String)
    (key : Bytes) (e : String)
    (hread : env.readFile path = .ok key)
    (hparse : env.parsePrivateKey key = .error e) :
    ((loadPublickey env path).agentDialed = true ↔ e = encryptedKeyMsg) ∧
    (e ≠ encryptedKeyMsg →
      loadPublickey env path = ⟨none, some e, false, false⟩) := by
  constructor
  · constructor
    · intro hd
      by_contra hne
      rw [loadPublickey_parse_error_other hread hparse hne] at hd
      simp at hd
    · intro he
      subst he
      cases hagent : (sshAgent env (path ++ ".pub")).auth with
      | some am => rw [loadPublickey_agent_some hread hparse hagent]
      | none =>
        rw [loadPublickey_pw_path hread hparse hagent rfl]
        cases hpw : env.parsePrivateKeyWithPassphrase key env.readPassword.1 with
        | ok s => simp [hpw]
        | error e2 => simp [hpw]
  · intro hne
    exact loadPublickey_parse_error_other hread hparse hne

/-- Concrete environment for the C1 witness: the key file exists but its
bytes fail to parse with a non-encryption error. -/
def c1Env : SSHEnv where
  readFile := fun p => if p = "/root/.ssh/id_rsa" then .ok ['k'] else .error "no such file"
  parsePrivateKey := fun _ => .error "ssh: no key found"
  parsePrivateKeyWithPassphrase := fun _ _ => .error "unreached"
  readPassword := ([], none)
  agentDialOk := false
  agentKeys := []
  parseAuthorizedKey := fun _ => .error "unreached"

theorem claim_C1_witness :
    (((loadPublickey c1Env "/root/.ssh/id_rsa").agentDialed = true
        ↔ "ssh: no key found" = encryptedKeyMsg) ∧
      ("ssh: no key found" ≠ encryptedKeyMsg →
        loadPublickey c1Env "/root/.ssh/id_rsa"
          = ⟨none, some "ssh: no key found", false, false⟩)) :=
  claim_C1_parse_error_gate c1Env "/root/.ssh/id_rsa" ['k'] "ssh: no key found"
    rfl rfl

/- ### Claim C2 -/

/-- C2: when reading the key file fails, `loadPublickey` returns the read
error at once — no agent dial, no passphrase prompt — and the orchestration
returns the wrapped error with an empty event trace (in particular, no
network dial) and the filesystem untouched. -/
theorem claim_C2_read_error_fatal (env : InstallEnv) (fs : FS) (fl : Flags)
    (e : String)
    (hread : env.ssh.readFile fl.sshKeyPath = .error e) :
    loadPublickey env.ssh fl.sshKeyPath = ⟨none, some e, false, false⟩ ∧
    runInstall env fs fl =
      ⟨.error ("unable to load the ssh key with path " ++ goQuote fl.sshKeyPath
          ++ ": " ++ e), fs, []⟩ := by
  have h := loadPublickey_read_error hread
  refine ⟨h, ?_⟩
  unfold runInstall
  simp [h]

/-- Concrete environment for the C2 witness: the key path does not exist. -/
def c2SSHEnv : SSHEnv where
  readFile := fun _ => .error "open /root/.ssh/id_rsa: no such file or directory"
  parsePrivateKey := fun _ => .error "unreached"
  parsePrivateKeyWithPassphrase := fun _ _ => .error "unreached"
  readPassword := ([], none)
  agentDialOk := true
  agentKeys := [⟨['b'], 7⟩]
  parseAuthorizedKey := fun _ => .error "unreached"

/-- Merge environment whose calls are never reached. -/
def unusedMergeEnv : MergeEnv where
  tempName := .error "unreached"
  writeResult := fun _ => none
  mergeTool := fun _ _ => .error "unreached"
  removeResult := fun _ => none

def c2Env : InstallEnv where
  ssh := c2SSHEnv
  connect := .ok ()
  execute := fun _ => .error "unreached"
  mergeEnv := unusedMergeEnv

def c2Flags : Flags where
  localPath := "/root/kubeconfig"
  skipInstall := false
  merge := false
  ip := "192.168.0.100"
  port := 22
  sshKeyPath := "/root/.ssh/id_rsa"
  k3sExtraArgs := ""
  k3sVersion := "v0.8.1"

theorem claim_C2_witness :
    (loadPublickey c2Env.ssh c2Flags.sshKeyPath
        = ⟨none, some "open /root/.ssh/id_rsa: no such file or directory", false, false⟩ ∧
      runInstall c2Env [] c2Flags =
        ⟨.error ("unable to load the ssh key with path "
            ++ goQuote c2Flags.sshKeyPath
            ++ ": " ++ "open /root/.ssh/id_rsa: no such file or directory"), [], []⟩) :=
  claim_C2_read_error_fatal c2Env [] c2Flags
    "open /root/.ssh/id_rsa: no such file or directory" rfl

/- ### Claim C7 -/

/-- C7: a key file that parses as a valid unencrypted private key makes
`loadPublickey` return `ssh.PublicKeys(signer)` and a nil error, with no
interactive prompt and no agent dial. -/
theorem claim_C7_unencrypted_key (env : SSHEnv) (path : String)
    (key : Bytes) (s : Nat)
    (hread : env.readFile path = .ok key)
    (hparse : env.parsePrivateKey key = .ok s) :
    loadPublickey env path = ⟨some (.publicKeys s), none, false, false⟩ := by
  simp only [loadPublickey, hread, hparse]

/-- Concrete environment for the C7 witness: a readable, valid,
unencrypted key. -/
def c7Env : SSHEnv where
  readFile := fun p => if p = "/root/.ssh/id_rsa" then .ok ['k'] else .error "no such file"
  parsePrivateKey := fun _ => .ok 42
  parsePrivateKeyWithPassphrase := fun _ _ => .error "unreached"
  readPassword := ([], none)
  agentDialOk := true
  agentKeys := [⟨['b'], 7⟩]
  parseAuthorizedKey := fun _ => .error "unreached"

theorem claim_C7_witness :
    loadPublickey c7Env "/root/.ssh/id_rsa"
      = ⟨some (.publicKeys 42), none, false, false⟩ :=
  claim_C7_unencrypted_key c7Env "/root/.ssh/id_rsa" ['k'] 42 rfl rfl

/- ### Claim C9 -/

/-- C9: on the passphrase path, the error of `terminal.ReadPassword` is
discarded: the outcome is the same for any value of that error, decryption
is attempted with the bytes that were read, and the only error
`loadPublickey` can surface from this step is the decryption failure. -/
theorem claim_C9_password_error_discarded (env : SSHEnv) (path : String)
    (key pw : Bytes) (perr perr2 : Option String)
    (hread : env.readFile path = .ok key)
    (hparse : env.parsePrivateKey key = .error encryptedKeyMsg)
    (hagent : (sshAgent env (path ++ ".pub")).auth = none)
    (hpw : env.readPassword = (pw, perr)) :
    loadPublickey env path
        = loadPublickey { env with readPassword := (pw, perr2) } path ∧
    ∀ e2, (loadPublickey env path).err = some e2 ↔
      env.parsePrivateKeyWithPassphrase key pw = .error e2 := by
  have h1 := loadPublickey_pw_path hread hparse hagent (by rw [hpw])
  have h2 := @loadPublickey_pw_path { env with readPassword := (pw, perr2) }
    path key pw hread hparse hagent rfl
  constructor
  · rw [h1]
    exact h2.symm
  · intro e2
    rw [h1]
    cases hpp : env.parsePrivateKeyWithPassphrase key pw with
    | ok s => simp [hpp]
    | error e3 => simp [hpp]

/-- Concrete environment for the C9 witness: encrypted key, no agent, and
a failing (discarded) password read. -/
def c9Env : SSHEnv where
  readFile := fun p => if p = "/root/.ssh/id_rsa" then .ok ['k'] else .error "no such file"
  parsePrivateKey := fun _ => .error encryptedKeyMsg
  parsePrivateKeyWithPassphrase := fun _ _ => .error "ssh: decryption password incorrect"
  readPassword := ([], some "read /dev/stdin: input/output error")
  agentDialOk := false
  agentKeys := []
  parseAuthorizedKey := fun _ => .error "unreached"

theorem claim_C9_witness :
    (loadPublickey c9Env "/root/.ssh/id_rsa"
        = loadPublickey { c9Env with readPassword := ([], none) } "/root/.ssh/id_rsa" ∧
      ((loadPublickey c9Env "/root/.ssh/id_rsa").err
          = some "ssh: decryption password incorrect" ↔
        c9Env.parsePrivateKeyWithPassphrase ['k'] []
          = .error "ssh: decryption password incorrect")) := by
  have h := claim_C9_password_error_discarded c9Env "/root/.ssh/id_rsa" ['k'] []
    (some "read /dev/stdin: input/output error") none rfl rfl rfl rfl
  exact ⟨h.1, h.2 "ssh: decryption password incorrect"⟩

/- ### Claim C10 -/

/-- C10: when the agent is reachable, holds at least one key, the public
key file is readable and parsable, and some agent key's blob matches, the
returned method is `ssh.PublicKeysCallback(sshAgent.Signers)` — a callback
offering the signers of all the agent's keys, not just the matching one. -/
theorem claim_C10_all_agent_signers (env : SSHEnv) (p : String)
    (pub blob : Bytes)
    (hdial : env.agentDialOk = true)
    (hkeys : env.agentKeys.length ≠ 0)
    (hpub : env.readFile p = .ok pub)
    (hparse : env.parseAuthorizedKey pub = .ok blob)
    (hmatch : env.agentKeys.any (fun k => k.blob == blob) = true) :
    sshAgent env p =
      ⟨some (.publicKeysCallback (env.agentKeys.map AgentKey.signer)), true⟩ := by
  simp only [sshAgent, hdial, hpub, hparse]
  simp [hkeys, hmatch]

/-- Concrete environment for the C10 witness: two agent keys, only the
second matches the local public key, yet both signers are offered. -/
def c10Env : SSHEnv where
  readFile := fun p => if p = "/root/.ssh/id_rsa.pub" then .ok ['P'] else .error "no such file"
  parsePrivateKey := fun _ => .error encryptedKeyMsg
  parsePrivateKeyWithPassphrase := fun _ _ => .error "unreached"
  readPassword := ([], none)
  agentDialOk := true
  agentKeys := [⟨['a'], 1⟩, ⟨['b'], 2⟩]
  parseAuthorizedKey := fun _ => .ok ['b']

theorem claim_C10_witness :
    sshAgent c10Env "/root/.ssh/id_rsa.pub"
      = ⟨some (.publicKeysCallback [1, 2]), true⟩ :=
  claim_C10_all_agent_signers c10Env "/root/.ssh/id_rsa.pub" ['P'] ['b']
    rfl (by decide) rfl rfl (by decide)

/- ### Claim C3 -/

/-- C3: the loopback rewrite replaces every occurrence of the literal
substrings `localhost` and `127.0.0.1` with the external address (scanning
left to right, occurrences consumed by a substitution are not double
counted), changes no other bytes, and the output length differs from the
input length by exactly (address length − 9) per substitution. -/
theorem claim_C3_rewrite_loopback (doc : Bytes) (addr : List Char) :
    ReplSpec addr doc (rewriteLoopback doc addr) (rewriteCount doc) ∧
    (rewriteLoopback doc addr).length + 9 * rewriteCount doc
      = doc.length + addr.length * rewriteCount doc :=
  goReplace_spec_aux doc.length doc addr (Nat.le_refl _)

/- ### mergeConfigs path characterisations -/

theorem mergeConfigs_success {env : MergeEnv} {fs : FS} {lp tn : String}
    {doc d : Bytes}
    (htn : env.tempName = .ok tn)
    (hfresh : fsLookup fs tn = none)
    (hne : tn ≠ lp)
    (hw : env.writeResult tn = none)
    (htool : env.mergeTool ((fsLookup fs lp).map FileData.content) (some doc)
        = .ok d)
    (hrm : env.removeResult tn = none) :
    mergeConfigs env fs lp doc
      = (.ok d, fsRemove (fsWrite (fsWrite fs tn [] 384) tn doc 384) tn) := by
  have hfs1 : fsLookup (fsWrite fs tn [] 384) tn = some ⟨384, []⟩ :=
    fsLookup_fsWrite_none [] 384 hfresh
  have hfs2tn : fsLookup (fsWrite (fsWrite fs tn [] 384) tn doc 384) tn
      = some ⟨384, doc⟩ := fsLookup_fsWrite_some doc 384 hfs1
  have hfs2lp : fsLookup (fsWrite (fsWrite fs tn [] 384) tn doc 384) lp
      = fsLookup fs lp := by
    rw [fsLookup_fsWrite_ne doc 384 (Ne.symm hne),
      fsLookup_fsWrite_ne [] 384 (Ne.symm hne)]
  simp only [mergeConfigs, writeConfig, htn, hw]
  rw [hfs2lp, hfs2tn]
  simp only [Option.map_some']
  rw [htool]
  simp only [hrm]

theorem mergeConfigs_tool_error {env : MergeEnv} {fs : FS} {lp tn : String}
    {doc : Bytes} {e : String}
    (htn : env.tempName = .ok tn)
    (hfresh : fsLookup fs tn = none)
    (hne : tn ≠ lp)
    (hw : env.writeResult tn = none)
    (htool : env.mergeTool ((fsLookup fs lp).map FileData.content) (some doc)
        = .error e) :
    mergeConfigs env fs lp doc
      = (.error ("Could not merge kubeconfigs: " ++ e),
          fsWrite (fsWrite fs tn [] 384) tn doc 384) := by
  have hfs1 : fsLookup (fsWrite fs tn [] 384) tn = some ⟨384, []⟩ :=
    fsLookup_fsWrite_none [] 384 hfresh
  have hfs2tn : fsLookup (fsWrite (fsWrite fs tn [] 384) tn doc 384) tn
      = some ⟨384, doc⟩ := fsLookup_fsWrite_some doc 384 hfs1
  have hfs2lp : fsLookup (fsWrite (fsWrite fs tn [] 384) tn doc 384) lp
      = fsLookup fs lp := by
    rw [fsLookup_fsWrite_ne doc 384 (Ne.symm hne),
      fsLookup_fsWrite_ne [] 384 (Ne.symm hne)]
  simp only [mergeConfigs, writeConfig, htn, hw]
  rw [hfs2lp, hfs2tn]
  simp only [Option.map_some']
  rw [htool]

theorem mergeConfigs_remove_error {env : MergeEnv} {fs : FS} {lp tn : String}
    {doc d : Bytes} {e : String}
    (htn : env.tempName = .ok tn)
    (hfresh : fsLookup fs tn = none)
    (hne : tn ≠ lp)
    (hw : env.writeResult tn = none)
    (htool : env.mergeTool ((fsLookup fs lp).map FileData.content) (some doc)
        = .ok d)
    (hrm : env.removeResult tn = some e) :
    mergeConfigs env fs lp doc
      = (.error ("Could not remove temporary kubeconfig file: " ++ tn ++ ": " ++ e),
          fsWrite (fsWrite fs tn [] 384) tn doc 384) := by
  have hfs1 : fsLookup (fsWrite fs tn [] 384) tn = some ⟨384, []⟩ :=
    fsLookup_fsWrite_none [] 384 hfresh
  have hfs2tn : fsLookup (fsWrite (fsWrite fs tn [] 384) tn doc 384) tn
      = some ⟨384, doc⟩ := fsLookup_fsWrite_some doc 384 hfs1
  have hfs2lp : fsLookup (fsWrite (fsWrite fs tn [] 384) tn doc 384) lp
      = fsLookup fs lp := by
    rw [fsLookup_fsWrite_ne doc 384 (Ne.symm hne),
      fsLookup_fsWrite_ne [] 384 (Ne.symm hne)]
  simp only [mergeConfigs, writeConfig, htn, hw]
  rw [hfs2lp, hfs2tn]
  simp only [Option.map_some']
  rw [htool]
  simp only [hrm]

theorem mergeConfigs_write_error {env : MergeEnv} {fs : FS} {lp tn : String}
    {doc : Bytes} {e : String}
    (htn : env.tempName = .ok tn)
    (hw : env.writeResult tn = some e) :
    mergeConfigs env fs lp doc = (.error e, fsWrite fs tn [] 384) := by
  simp only [mergeConfigs, writeConfig, htn, hw]

/- ### Claim C4 -/

/-- Concrete environment in which the temporary file is created and written
but the external merge tool exits with failure. -/
def c4FailEnv : MergeEnv where
  tempName := .ok "/tmp/k3s-temp-123"
  writeResult := fun _ => none
  mergeTool := fun _ _ => .error "exit status 1"
  removeResult := fun _ => none

/-- C4 counterexample: an invocation of `mergeConfigs` in which the
temporary file was successfully created, the external tool exits with
failure, and after `mergeConfigs` returns the temporary file is still
present on the filesystem — refuting the claim that it is removed on every
failure path. -/
theorem claim_C4_counterexample :
    (mergeConfigs c4FailEnv [("/root/kubeconfig", ⟨384, ['o', 'l', 'd']⟩)]
        "/root/kubeconfig" ['n', 'e', 'w']).1
      = .error "Could not merge kubeconfigs: exit status 1" ∧
    fsLookup (mergeConfigs c4FailEnv [("/root/kubeconfig", ⟨384, ['o', 'l', 'd']⟩)]
        "/root/kubeconfig" ['n', 'e', 'w']).2 "/tmp/k3s-temp-123"
      = some ⟨384, ['n', 'e', 'w']⟩ :=
  ⟨rfl, rfl⟩

/-- C4 (amended): once the temporary file was successfully created, it is
removed before `mergeConfigs` returns only on the success path (external
tool succeeded and the removal itself succeeded); on each failure path
after creation — write failure, external-tool failure, and removal
failure — `mergeConfigs` returns an error with the temporary file still
present on the filesystem. -/
theorem claim_C4_amended_cleanup (env : MergeEnv) (fs : FS) (lp : String)
    (doc : Bytes) (tn : String)
    (htn : env.tempName = .ok tn)
    (hfresh : fsLookup fs tn = none)
    (hne : tn ≠ lp) :
    (∀ d, env.writeResult tn = none →
      env.mergeTool ((fsLookup fs lp).map FileData.content) (some doc) = .ok d →
      env.removeResult tn = none →
      (mergeConfigs env fs lp doc).1 = .ok d ∧
      fsLookup (mergeConfigs env fs lp doc).2 tn = none) ∧
    (∀ e, env.writeResult tn = some e →
      (mergeConfigs env fs lp doc).1 = .error e ∧
      fsLookup (mergeConfigs env fs lp doc).2 tn = some ⟨384, []⟩) ∧
    (∀ e, env.writeResult tn = none →
      env.mergeTool ((fsLookup fs lp).map FileData.content) (some doc) = .error e →
      (mergeConfigs env fs lp doc).1 = .error ("Could not merge kubeconfigs: " ++ e) ∧
      fsLookup (mergeConfigs env fs lp doc).2 tn = some ⟨384, doc⟩) ∧
    (∀ d e, env.writeResult tn = none →
      env.mergeTool ((fsLookup fs lp).map FileData.content) (some doc) = .ok d →
      env.removeResult tn = some e →
      (mergeConfigs env fs lp doc).1
        = .error ("Could not remove temporary kubeconfig file: " ++ tn ++ ": " ++ e) ∧
      fsLookup (mergeConfigs env fs lp doc).2 tn = some ⟨384, doc⟩) := by
  refine ⟨?_, ?_, ?_, ?_⟩
  · intro d hw htool hrm
    rw [mergeConfigs_success htn hfresh hne hw htool hrm]
    exact ⟨rfl, fsLookup_fsRemove_self⟩
  · intro e hw
    rw [mergeConfigs_write_error htn hw]
    exact ⟨rfl, fsLookup_fsWrite_none [] 384 hfresh⟩
  · intro e hw htool
    rw [mergeConfigs_tool_error htn hfresh hne hw htool]
    refine ⟨rfl, ?_⟩
    exact fsLookup_fsWrite_some doc 384 (fsLookup_fsWrite_none [] 384 hfresh)
  · intro d e hw htool hrm
    rw [mergeConfigs_remove_error htn hfresh hne hw htool hrm]
    refine ⟨rfl, ?_⟩
    exact fsLookup_fsWrite_some doc 384 (fsLookup_fsWrite_none [] 384 hfresh)

/-- Concrete environment in which every step of the merge succeeds. -/
def c4OkEnv : MergeEnv where
  tempName := .ok "/tmp/k3s-temp-123"
  writeResult := fun _ => none
  mergeTool := fun _ _ => .ok ['m', 'r', 'g']
  removeResult := fun _ => none

/-- Concrete environment in which writing the new document to the
temporary file fails. -/
def c4WriteFailEnv : MergeEnv where
  tempName := .ok "/tmp/k3s-temp-123"
  writeResult := fun p => if p = "/tmp/k3s-temp-123" then some "disk full" else none
  mergeTool := fun _ _ => .error "unreached"
  removeResult := fun _ => none

theorem claim_C4_witness :
    ((mergeConfigs c4OkEnv [("/root/kubeconfig", ⟨384, ['o']⟩)]
        "/root/kubeconfig" ['n']).1 = .ok ['m', 'r', 'g'] ∧
      fsLookup (mergeConfigs c4OkEnv [("/root/kubeconfig", ⟨384, ['o']⟩)]
        "/root/kubeconfig" ['n']).2 "/tmp/k3s-temp-123" = none) ∧
    ((mergeConfigs c4WriteFailEnv [("/root/kubeconfig", ⟨384, ['o']⟩)]
        "/root/kubeconfig" ['n']).1 = .error "disk full" ∧
      fsLookup (mergeConfigs c4WriteFailEnv [("/root/kubeconfig", ⟨384, ['o']⟩)]
        "/root/kubeconfig" ['n']).2 "/tmp/k3s-temp-123" = some ⟨384, []⟩) :=
  ⟨(claim_C4_amended_cleanup c4OkEnv [("/root/kubeconfig", ⟨384, ['o']⟩)]
      "/root/kubeconfig" ['n'] "/tmp/k3s-temp-123" rfl rfl (by decide)).1
    ['m', 'r', 'g'] rfl rfl rfl,
   (claim_C4_amended_cleanup c4WriteFailEnv [("/root/kubeconfig", ⟨384, ['o']⟩)]
      "/root/kubeconfig" ['n'] "/tmp/k3s-temp-123" rfl rfl (by decide)).2.1
    "disk full" rfl⟩

/- ### Claim C5 -/

/-- Concrete environment in which the external tool succeeds but removing
the temporary file fails. -/
def c5Env : MergeEnv where
  tempName := .ok "/tmp/k3s-temp-9"
  writeResult := fun _ => none
  mergeTool := fun _ _ => .ok ['m', 'e', 'r', 'g', 'e', 'd']
  removeResult := fun p => if p = "/tmp/k3s-temp-9" then some "permission denied" else none

/-- C5 counterexample: after the external merge tool succeeds, a failing
deletion of the temporary file is *not* ignored — `mergeConfigs` returns an
error and not the merged bytes, refuting the claim. -/
theorem claim_C5_counterexample :
    (mergeConfigs c5Env [("/root/kubeconfig", ⟨384, ['o']⟩)]
        "/root/kubeconfig" ['n']).1
      = .error "Could not remove temporary kubeconfig file: /tmp/k3s-temp-9: permission denied" ∧
    ∀ d : Bytes, (mergeConfigs c5Env [("/root/kubeconfig", ⟨384, ['o']⟩)]
        "/root/kubeconfig" ['n']).1 ≠ .ok d := by
  have h1 : (mergeConfigs c5Env [("/root/kubeconfig", ⟨384, ['o']⟩)]
      "/root/kubeconfig" ['n']).1
      = .error "Could not remove temporary kubeconfig file: /tmp/k3s-temp-9: permission denied" :=
    rfl
  refine ⟨h1, ?_⟩
  intro d h
  rw [h1] at h
  exact Except.noConfusion h

/-- C5 (amended): a failure of the temporary-file deletion after a
successful merge is not ignored: `mergeConfigs` discards the merged bytes
and returns an error wrapping the removal failure, with the temporary file
still present. -/
theorem claim_C5_amended_remove_error (env : MergeEnv) (fs : FS) (lp : String)
    (doc d : Bytes) (tn e : String)
    (htn : env.tempName = .ok tn)
    (hfresh : fsLookup fs tn = none)
    (hne : tn ≠ lp)
    (hw : env.writeResult tn = none)
    (htool : env.mergeTool ((fsLookup fs lp).map FileData.content) (some doc)
        = .ok d)
    (hrm : env.removeResult tn = some e) :
    (mergeConfigs env fs lp doc).1
      = .error ("Could not remove temporary kubeconfig file: " ++ tn ++ ": " ++ e) ∧
    fsLookup (mergeConfigs env fs lp doc).2 tn = some ⟨384, doc⟩ := by
  rw [mergeConfigs_remove_error htn hfresh hne hw htool hrm]
  refine ⟨rfl, ?_⟩
  exact fsLookup_fsWrite_some doc 384 (fsLookup_fsWrite_none [] 384 hfresh)

theorem claim_C5_witness :
    ((mergeConfigs c5Env [("/root/kubeconfig", ⟨384, ['o']⟩)]
        "/root/kubeconfig" ['n']).1
      = .error ("Could not remove temporary kubeconfig file: " ++ "/tmp/k3s-temp-9"
          ++ ": " ++ "permission denied") ∧
      fsLookup (mergeConfigs c5Env [("/root/kubeconfig", ⟨384, ['o']⟩)]
        "/root/kubeconfig" ['n']).2 "/tmp/k3s-temp-9" = some ⟨384, ['n']⟩) :=
  claim_C5_amended_remove_error c5Env [("/root/kubeconfig", ⟨384, ['o']⟩)]
    "/root/kubeconfig" ['n'] ['m', 'e', 'r', 'g', 'e', 'd'] "/tmp/k3s-temp-9"
    "permission denied" rfl rfl (by decide) rfl rfl rfl

/- ### Claim C6 -/

/-- Environment whose `WriteFile` calls all succeed (only `writeResult` is
reached by `writeConfig`). -/
def c6Env : MergeEnv where
  tempName := .error "unreached"
  writeResult := fun _ => none
  mergeTool := fun _ _ => .error "unreached"
  removeResult := fun _ => none

/-- C6 counterexample: `writeConfig` goes through `ioutil.WriteFile`, whose
permission argument only applies when the file is created; a destination
file that already existed with permission `0644` (420) keeps that
permission after a successful `writeConfig`, refuting the claim that the
destination always has `0600` (384) afterwards.  The contents, however, are
fully replaced. -/
theorem claim_C6_counterexample :
    writeConfig c6Env [("/root/kubeconfig", ⟨420, ['o', 'l', 'd']⟩)]
        "/root/kubeconfig" ['n', 'e', 'w'] false
      = .ok [("/root/kubeconfig", ⟨420, ['n', 'e', 'w']⟩)] ∧
    (420 : Nat) ≠ 384 :=
  ⟨rfl, by decide⟩

/-- C6 (amended): a `writeConfig` call that returns without error leaves
the destination holding exactly the bytes passed in — a full overwrite,
never a prefix or a concatenation of old and new content; the file has
permission `0600` when the call created it, while a pre-existing
destination keeps its prior permission (`ioutil.WriteFile` truncates
without changing permissions). -/
theorem claim_C6_amended_persist (env : MergeEnv) (fs : FS) (p : String)
    (data : Bytes) (sm : Bool) (fs2 : FS)
    (h : writeConfig env fs p data sm = .ok fs2) :
    (fsLookup fs p = none → fsLookup fs2 p = some ⟨384, data⟩) ∧
    (∀ fd0, fsLookup fs p = some fd0 → fsLookup fs2 p = some ⟨fd0.perm, data⟩) := by
  unfold writeConfig at h
  cases hw : env.writeResult p with
  | some e => rw [hw] at h; exact Except.noConfusion h
  | none =>
    rw [hw] at h
    have hfs2 : fs2 = fsWrite fs p data 384 := (Except.ok.injEq _ _).mp h.symm
    subst hfs2
    constructor
    · intro hnone
      exact fsLookup_fsWrite_none data 384 hnone
    · intro fd0 hsome
      exact fsLookup_fsWrite_some data 384 hsome

theorem claim_C6_witness :
    ((fsLookup ([] : FS) "/root/kubeconfig" = none →
        fsLookup [("/root/kubeconfig", ⟨384, ['n']⟩)] "/root/kubeconfig"
          = some ⟨384, ['n']⟩) ∧
      (∀ fd0, fsLookup ([] : FS) "/root/kubeconfig" = some fd0 →
        fsLookup [("/root/kubeconfig", ⟨384, ['n']⟩)] "/root/kubeconfig"
          = some ⟨fd0.perm, ['n']⟩)) :=
  claim_C6_amended_persist c6Env [] "/root/kubeconfig" ['n'] false
    [("/root/kubeconfig", ⟨384, ['n']⟩)] rfl

/- ### Claim C8 -/

/-- C8: with `skipInstall = true` and `merge = true` and an existing
destination file, the installer command is never sent over the remote
session (every executed remote command is the retrieval command), the
loopback-rewritten retrieved document is merged with the existing
destination content by the external tool, and the merge result replaces
the destination file's contents. -/
theorem claim_C8_skip_install_merge (env : InstallEnv) (fs : FS) (fl : Flags)
    (perm0 : Nat) (existing stdout stderr merged : Bytes) (tn : String)
    (hskip : fl.skipInstall = true)
    (hmerge : fl.merge = true)
    (hdest : fsLookup fs fl.localPath = some ⟨perm0, existing⟩)
    (hload : (loadPublickey env.ssh fl.sshKeyPath).err = none)
    (hconn : env.connect = .ok ())
    (hexec : env.execute getConfigCommand = .ok ⟨stdout, stderr⟩)
    (htn : env.mergeEnv.tempName = .ok tn)
    (hfresh : fsLookup fs tn = none)
    (hne : tn ≠ fl.localPath)
    (hwt : env.mergeEnv.writeResult tn = none)
    (htool : env.mergeEnv.mergeTool (some existing)
        (some (rewriteLoopback stdout fl.ip.data)) = .ok merged)
    (hrm : env.mergeEnv.removeResult tn = none)
    (hwd : env.mergeEnv.writeResult fl.localPath = none) :
    (runInstall env fs fl).result = .ok () ∧
    (∀ c, Event.remoteExec c ∈ (runInstall env fs fl).events →
      c = getConfigCommand) ∧
    fsLookup (runInstall env fs fl).fs fl.localPath = some ⟨perm0, merged⟩ := by
  have htool2 : env.mergeEnv.mergeTool
      ((fsLookup fs fl.localPath).map FileData.content)
      (some (rewriteLoopback stdout fl.ip.data)) = .ok merged := by
    rw [hdest]
    simpa using htool
  have hm := mergeConfigs_success htn hfresh hne hwt htool2 hrm
  have hrun : runInstall env fs fl = runFetchAndPersist env fs fl
      ((if (loadPublickey env.ssh fl.sshKeyPath).agentDialed
          then [Event.agentDial] else [])
        ++ [Event.sshDial (fl.ip ++ ":" ++ toString fl.port)]) := by
    unfold runInstall
    simp [hload, hconn, hskip]
  have hfp : ∀ ev, runFetchAndPersist env fs fl ev =
      ⟨.ok (), fsWrite (fsRemove (fsWrite (fsWrite fs tn [] 384) tn
          (rewriteLoopback stdout fl.ip.data) 384) tn) fl.localPath merged 384,
        ev ++ [Event.remoteExec getConfigCommand]⟩ := by
    intro ev
    simp only [runFetchAndPersist, hexec]
    simp [hmerge, hm, writeConfig, hwd]
  rw [hrun, hfp]
  refine ⟨rfl, ?_, ?_⟩
  · intro c hc
    cases hag : (loadPublickey env.ssh fl.sshKeyPath).agentDialed with
    | false => simp [hag] at hc; exact hc
    | true => simp [hag] at hc; exact hc
  · have hx : fsLookup (fsRemove (fsWrite (fsWrite fs tn [] 384) tn
        (rewriteLoopback stdout fl.ip.data) 384) tn) fl.localPath
        = some ⟨perm0, existing⟩ := by
      rw [fsLookup_fsRemove_ne (Ne.symm hne),
        fsLookup_fsWrite_ne _ _ (Ne.symm hne),
        fsLookup_fsWrite_ne _ _ (Ne.symm hne), hdest]
    exact fsLookup_fsWrite_some merged 384 hx

/-- Concrete environments for the C8 witness. -/
def c8SSHEnv : SSHEnv where
  readFile := fun _ => .ok ['k']
  parsePrivateKey := fun _ => .ok 5
  parsePrivateKeyWithPassphrase := fun _ _ => .error "unreached"
  readPassword := ([], none)
  agentDialOk := false
  agentKeys := []
  parseAuthorizedKey := fun _ => .error "unreached"

def c8MergeEnv : MergeEnv where
  tempName := .ok "/tmp/k3s-temp-7"
  writeResult := fun _ => none
  mergeTool := fun _ _ => .ok ['M']
  removeResult := fun _ => none

def c8Env : InstallEnv where
  ssh := c8SSHEnv
  connect := .ok ()
  execute := fun c =>
    if c = getConfigCommand
    then .ok ⟨['1', '2', '7', '.', '0', '.', '0', '.', '1'], []⟩
    else .error "unexpected"
  mergeEnv := c8MergeEnv

def c8Flags : Flags where
  localPath := "/root/kubeconfig"
  skipInstall := true
  merge := true
  ip := "192.168.0.100"
  port := 22
  sshKeyPath := "/root/.ssh/id_rsa"
  k3sExtraArgs := ""
  k3sVersion := "v0.8.1"

theorem claim_C8_witness :
    ((runInstall c8Env [("/root/kubeconfig", ⟨384, ['o']⟩)] c8Flags).result
        = .ok () ∧
      fsLookup (runInstall c8Env [("/root/kubeconfig", ⟨384, ['o']⟩)] c8Flags).fs
        "/root/kubeconfig" = some ⟨384, ['M']⟩) := by
  have h := claim_C8_skip_install_merge c8Env
    [("/root/kubeconfig", ⟨384, ['o']⟩)] c8Flags
    384 ['o'] ['1', '2', '7', '.', '0', '.', '0', '.', '1'] [] ['M'] "/tmp/k3s-temp-7"
    rfl rfl rfl rfl rfl rfl rfl rfl (by decide) rfl rfl rfl rfl
  exact ⟨h.1, h.2.2⟩
